import Mathlib

/-!
Shallow embedding of the Eterna_Labs crypto token aggregation service.

The service (apiClient, scheduler, redisClient, websocket modules) periodically
fetches token price data from upstream HTTP sources, merges it into a catalog
stored in Redis, serves paginated views of the catalog over HTTP, and pushes
price-change events to realtime clients through Redis pub/sub.

Modelling conventions used throughout this file:
* JS numbers are modelled as rationals (the arithmetic exercised by the
  theorems stays far from any float rounding boundary).
* Network and clock effects are passed in as explicit parameters: the outcome
  of each axios attempt, the settled outcome of each upstream fetch, the value
  of the random jitter, and the current timestamp string.
* Redis writes are modelled as explicit write records (key, value, TTL), and
  the per-query view cache as an association list whose entries are the keys
  currently live (an entry being present models being inside its TTL window).
* Fallible JS code is modelled with Except; a thrown error that is not caught
  inside a function shows up as an error value propagated to the caller.
-/

namespace EternaLabs

/-- An axios request error: responseStatus is the HTTP status of
error.response when the server answered, and none for a network or parse
failure that produced no response object. -/
structure AxiosError where
  responseStatus : Option Nat
  deriving DecidableEq

/-- The transiency test of fetchWithRetry (apiClient line 27):
error.response exists and its status is 429 or at least 500. -/
def isTransientError (e : AxiosError) : Bool :=
  match e.responseStatus with
  | some s => s == 429 || decide (500 ≤ s)
  | none => false

/-- Trace of one fetchWithRetry call: the value returned or error thrown, how
many axios attempts were made, and the backoff delays (in ms) slept between
attempts.  result = Except.ok none models the undefined returned when the
loop body never runs (retries = 0). -/
structure RetryTrace (α : Type) where
  result : Except AxiosError (Option α)
  attemptsMade : Nat
  delays : List ℚ

/-- Loop body of fetchWithRetry (apiClient lines 21-39).  The for loop over
i in [0, retries) is unrolled by structural recursion on the number of
remaining iterations; the caller starts it with remaining = retries, so that
remaining = retries - i at every step.  attempt j is the outcome of the
axios.get call on (0-indexed) attempt j; random j is the value Math.random()
produced on attempt j, so the jitter added to the backoff is random j * 500.
On error: the last attempt, or a non-transient error, re-throws; otherwise
the delay (2 raised to i) * 1000 + random i * 500 is slept and the loop
continues. -/
def fetchWithRetryGo (attempt : Nat → Except AxiosError α) (random : Nat → ℚ)
    (retries : Nat) : Nat → Nat → RetryTrace α
  | _, 0 => ⟨.ok none, 0, []⟩
  | i, remaining + 1 =>
    match attempt i with
    | .ok v => ⟨.ok (some v), 1, []⟩
    | .error e =>
      if i = retries - 1 ∨ isTransientError e = false then
        ⟨.error e, 1, []⟩
      else
        let rest := fetchWithRetryGo attempt random retries (i + 1) remaining
        ⟨rest.result, rest.attemptsMade + 1,
          ((2 : ℚ) ^ i * 1000 + random i * 500) :: rest.delays⟩

/-- fetchWithRetry (apiClient lines 20-40) with its default of 3 retries. -/
def fetchWithRetry (attempt : Nat → Except AxiosError α) (random : Nat → ℚ)
    (retries : Nat := 3) : RetryTrace α :=
  fetchWithRetryGo attempt random retries 0 retries

/-- The volume object of a DexScreener pair; its h24 field may itself be
absent. -/
structure PairVolume where
  h24 : Option ℚ
  deriving DecidableEq

/-- One DexScreener trading pair as consumed by the scheduler: priceUsd is
the parsed (parseFloat) price, and volume is the optional volume object.
The distinction between a missing volume object and a present object with
a missing h24 field matters: the comparator reads pair.volume?.h24 with an
optional chain, but the event construction at scheduler line 72 reads
pair.volume.h24 without one and throws a TypeError when volume is absent. -/
structure Pair where
  priceUsd : ℚ
  volume : Option PairVolume
  deriving DecidableEq

/-- One Jupiter token search entry; its contents are never inspected by the
code under verification, only the presence of the fetched list matters. -/
structure JupiterToken where
  tokenId : String
  deriving DecidableEq

/-- TokenRecord as produced by mergeAndCleanTokenData and served by the
token-list endpoint. -/
structure TokenRecord where
  id : String
  price : ℚ
  volume24h : ℚ
  priceChange1h : ℚ
  priceChange24h : ℚ
  deriving DecidableEq

/-- Per-symbol raw fetch results handed to the merge step (scheduler lines
29-33): each source is none when its fetch promise was rejected. -/
structure RawSourceResult where
  symbol : String
  dexScreener : Option (List Pair)
  jupiterPrice : Option (List JupiterToken)
  deriving DecidableEq

/-- mergeAndCleanTokenData (apiClient lines 84-93).  The body ignores
rawPairs entirely and returns a hard-coded three-element list; this is
faithful to the source, whose comment says it should eventually normalize
by token address but returns a simple mock list for this implementation. -/
def mergeAndCleanTokenData (rawPairs : List RawSourceResult) : List TokenRecord :=
  [⟨"SOL", 150.25, 1500000000, 0.5, 7.2⟩,
   ⟨"JUP", 0.85, 50000000, -1.2, 3.1⟩,
   ⟨"BONK", 0.000025, 120000000, 2.1, 15.5⟩]

/-- Key for the aggregated list in Redis (apiClient line 9). -/
def TOKEN_LIST_KEY : String := "global_token_list"

/-- Default TTL used by setJson in redisClient (CACHE_TTL_SECONDS = 30). -/
def CACHE_TTL_SECONDS : Nat := 30

/-- Seconds between full-aggregation runs under the default cron expression
of the scheduler, every 5 minutes. -/
def AGGREGATION_PERIOD_SECONDS : Nat := 300

/-- Values this service writes to Redis: the aggregated token list, a
per-query result view, or a ticker state record holding one price. -/
inductive CacheValue where
  | tokenList (l : List TokenRecord)
  | ticker (price : ℚ)
  deriving DecidableEq

/-- One Redis SET performed through setJson: redis.set key json EX ttl. -/
structure CacheWrite where
  key : String
  value : CacheValue
  ttlSeconds : Nat
  deriving DecidableEq

/-- setJson from redisClient: always overwrites and always sets an expiry;
callers that pass no ttl get the default CACHE_TTL_SECONDS = 30. -/
def setJson (key : String) (value : CacheValue)
    (ttl : Nat := CACHE_TTL_SECONDS) : CacheWrite :=
  ⟨key, value, ttl⟩

/-- Mock list of popular tokens tracked by the scheduler (scheduler line 10). -/
def MOCK_TOP_TOKENS : List String := ["SOL", "JUP", "BONK", "WEN"]

/-- runFullAggregation (scheduler lines 16-49), with the settled outcomes of
fetchDexScreener and fetchJupiterPrice per symbol passed in (Promise
allSettled turns a rejection into an absent source, matching Except.toOption).
Symbols whose sources are both absent are filtered out, the survivors go to
mergeAndCleanTokenData, and the result is stored with setJson and no explicit
ttl.  The value returned is the list of Redis writes the job performs.  The
try block of the job can no longer throw once both fetches are settled, so
the catch branch (log and skip the cycle) is unreachable in this model. -/
def runFullAggregation (dexRes : String → Except AxiosError (List Pair))
    (jupRes : String → Except AxiosError (List JupiterToken)) : List CacheWrite :=
  let rawResults :=
    (MOCK_TOP_TOKENS.map fun symbol =>
      RawSourceResult.mk symbol (dexRes symbol).toOption (jupRes symbol).toOption
    ).filter fun r => r.dexScreener.isSome || r.jupiterPrice.isSome
  let aggregatedList := mergeAndCleanTokenData rawResults
  [setJson TOKEN_LIST_KEY (.tokenList aggregatedList)]

/-- TickerState persisted under the key ticker:SOL. -/
structure TickerState where
  price : ℚ
  deriving DecidableEq

/-- PriceUpdateEvent published to the realtime channel (scheduler lines
69-74).  volume24h is the h24 field of the chosen pair's volume object
(none when h24 is absent, i.e. undefined in the serialized event); the
event is only ever built after the volume object itself was found present,
since reading volume.h24 on an absent volume object throws instead. -/
structure PriceUpdate where
  symbol : String
  price : ℚ
  volume24h : Option ℚ
  timestamp : String
  deriving DecidableEq

/-- Price-change threshold of the ticker job: 0.05 percent. -/
def PRICE_CHANGE_THRESHOLD : ℚ := 0.0005

/-- The comparison Math.abs(newPrice - oldPrice) / oldPrice > 0.0005 with JS
division semantics: when oldPrice = 0 the quotient is Infinity (greater than
the threshold) unless newPrice is also 0, in which case it is NaN and every
comparison is false.  For oldPrice different from 0 this is exact rational
arithmetic. -/
def jsPriceMoveExceedsThreshold (newPrice oldPrice : ℚ) : Bool :=
  if oldPrice = 0 then decide (newPrice ≠ 0)
  else decide (|newPrice - oldPrice| / oldPrice > PRICE_CHANGE_THRESHOLD)

/-- Stable insertion of x into a list already sorted in descending key
order; x goes in front of the first element whose key does not exceed its
own, preserving the relative order of equal keys. -/
def insertDescBy (key : α → ℚ) (x : α) : List α → List α
  | [] => [x]
  | y :: ys => if key y > key x then y :: insertDescBy key x ys else x :: y :: ys

/-- Stable descending sort by a rational key.  Models the ECMA-262 stable
Array sort with comparator (a, b) => keyOf b - keyOf a: for such a
comparator the stable sorted order is unique, and this insertion sort
produces it. -/
def sortDescBy (key : α → ℚ) : List α → List α
  | [] => []
  | x :: xs => insertDescBy key x (sortDescBy key xs)

/-- The pair ranking of the ticker job (scheduler line 65): sort pairs by
descending pair.volume?.h24 with a missing volume object or missing h24
read as 0 (the optional chain yields undefined and the fallback picks 0). -/
def sortPairsByVolume (l : List Pair) : List Pair :=
  sortDescBy (fun p => ((p.volume.bind PairVolume.h24).getD 0)) l

/-- Outcome of one successful ticker cycle: the event published to the
realtime channel, if any, and the Redis write of the new ticker state. -/
structure TickerOutcome where
  published : Option PriceUpdate
  stateWrite : Option CacheWrite
  deriving DecidableEq

/-- A value thrown inside the ticker job and propagated to its caller:
either the rejection of one of the two awaited promises (the SOL pair
fetch or the ticker-state cache read, both axios/cache errors), or the
TypeError raised at scheduler line 72 when the publish branch reads
volume.h24 of a chosen pair whose volume object is absent. -/
inductive TickerFailure where
  | rejected (e : AxiosError)
  | typeError
  deriving DecidableEq

/-- runRealtimeTicker (scheduler lines 56-84).  solDexRes and solOldRes are
the outcomes of fetchDexScreener("SOL") and getJson("ticker:SOL"); the job
awaits them through Promise.all with no try/catch of its own, so a rejection
of either propagates out of the function (modelled by the error matches).
When the pair list is non-empty the job takes the highest-volume pair and,
when a prior state exists and the relative move exceeds the threshold,
builds and publishes a PriceUpdate: building it reads latestPair.volume.h24
without an optional chain, so a chosen pair without a volume object makes
that branch throw a TypeError, skipping both the publish and the state
write.  On every path that does not throw, the new price is written as
ticker state with a 60 second TTL, whether or not a publish occurred. -/
def runRealtimeTicker (solDexRes : Except AxiosError (List Pair))
    (solOldRes : Except AxiosError (Option TickerState)) (now : String) :
    Except TickerFailure TickerOutcome :=
  match solDexRes with
  | .error e => .error (.rejected e)
  | .ok solDex =>
    match solOldRes with
    | .error e => .error (.rejected e)
    | .ok solOld =>
      if 0 < solDex.length then
        match sortPairsByVolume solDex with
        | [] => .ok ⟨none, none⟩
        | latestPair :: _ =>
          let newPrice := latestPair.priceUsd
          match solOld with
          | some old =>
            if jsPriceMoveExceedsThreshold newPrice old.price then
              match latestPair.volume with
              | none => .error .typeError
              | some v =>
                .ok ⟨some ⟨"SOL", newPrice, v.h24, now⟩,
                  some (setJson "ticker:SOL" (.ticker newPrice) 60)⟩
            else .ok ⟨none, some (setJson "ticker:SOL" (.ticker newPrice) 60)⟩
          | none => .ok ⟨none, some (setJson "ticker:SOL" (.ticker newPrice) 60)⟩
      else
        .ok ⟨none, none⟩

/-- Lookup of b[sortBy] as a number for the sort comparator of getTokenList.
The four numeric fields are addressable; any other name (including id, whose
string value would make the JS comparator return NaN) is read as 0, the
value the comparator fallback b[sortBy] || 0 produces for absent fields.
The claims only exercise the numeric field names. -/
def TokenRecord.numField (r : TokenRecord) (name : String) : ℚ :=
  if name = "price" then r.price
  else if name = "volume24h" then r.volume24h
  else if name = "priceChange1h" then r.priceChange1h
  else if name = "priceChange24h" then r.priceChange24h
  else 0

/-- The in-memory sort of getTokenList (apiClient line 122): descending by
the named numeric field, stable for ties. -/
def sortTokens (sortBy : String) (l : List TokenRecord) : List TokenRecord :=
  sortDescBy (fun r => r.numField sortBy) l

/-- Parsed query of the token-list endpoint.  limit and nextCursor hold the
parseInt values of the corresponding query parameters (the source transports
the cursor as a string-encoded integer; parseInt inverts toString, so the
integer is kept here); absent parameters default to limit 20, sortBy
volume24h, filterBy 24h, and a cursor of 0. -/
structure ListQuery where
  limit : Nat
  sortBy : String
  filterBy : String
  nextCursor : Option Nat
  deriving DecidableEq

/-- Pagination block of a query result view. -/
structure Pagination where
  limit : Nat
  nextCursor : Option Nat
  deriving DecidableEq

/-- QueryResultView: the JSON body built and cached by getTokenList. -/
structure QueryResultView where
  data : List TokenRecord
  pagination : Pagination
  cached : Bool
  cacheTime : String
  deriving DecidableEq

/-- HTTP reply of the token-list endpoint: res.status(s).json(body). -/
inductive ApiResponse where
  | ok (status : Nat) (body : QueryResultView)
  | err (status : Nat) (errorMsg : String)
  deriving DecidableEq

/-- The per-query view cache: the entries currently live (inside their TTL
window), newest first; setJson overwrites by shadowing older entries. -/
abbrev ViewCache := List (String × QueryResultView)

/-- Cache key of getTokenList (apiClient line 103): the tuple (limit,
sortBy, filterBy) joined with underscores; nextCursor is not part of it. -/
def cacheKeyFor (limit : Nat) (sortBy filterBy : String) : String :=
  TOKEN_LIST_KEY ++ "_" ++ toString limit ++ "_" ++ sortBy ++ "_" ++ filterBy

/-- Error body returned while no catalog is available (apiClient line 116). -/
def CATALOG_UNAVAILABLE_MSG : String :=
  "Token list is currently being aggregated. Try again shortly."

/-- getTokenList (apiClient lines 101-151) as a pure function of the request
query, the live view-cache entries, the stored catalog (none when the
catalog key is absent from Redis), and the current timestamp string.
Returns the HTTP response together with the view cache after the call.
Redis itself is assumed reachable, so the catch-all 500 branch of the
source is not taken in this model. -/
def getTokenList (q : ListQuery) (viewCache : ViewCache)
    (catalog : Option (List TokenRecord)) (now : String) :
    ApiResponse × ViewCache :=
  let cacheKey := cacheKeyFor q.limit q.sortBy q.filterBy
  match List.lookup cacheKey viewCache with
  | some cachedList => (.ok 200 { cachedList with cached := true }, viewCache)
  | none =>
    match catalog with
    | none => (.err 503 CATALOG_UNAVAILABLE_MSG, viewCache)
    | some fullList =>
      if fullList.length = 0 then (.err 503 CATALOG_UNAVAILABLE_MSG, viewCache)
      else
        let sorted := sortTokens q.sortBy fullList
        let startIndex := q.nextCursor.getD 0
        let limitInt := q.limit
        let paginatedList := (sorted.drop startIndex).take limitInt
        let next :=
          if startIndex + limitInt < sorted.length then some (startIndex + limitInt)
          else none
        let responseBody : QueryResultView := ⟨paginatedList, ⟨limitInt, next⟩, false, now⟩
        (.ok 200 responseBody, (cacheKey, responseBody) :: viewCache)

/-- The Redis pub/sub channel of the ticker (scheduler line 7). -/
def REALTIME_CHANNEL : String := "token_price_updates"

/-- The subscriber message handler installed by setupWebsocket (websocket
lines 26-37).  parseResult is the outcome of JSON.parse on the raw message
payload (ok with the parsed value, or error with the thrown message) and
clients are the ids of the currently connected realtime clients.  Returns
the socket emissions performed, one (client, event name, data) triple per
connected client, together with the number of errors logged.  Messages on
other channels are ignored; a parse failure is logged and dropped inside
the handler, which always returns normally. -/
def onBroadcastMessage (parseResult : Except String α) (channel : String)
    (clients : List String) : List (String × String × α) × Nat :=
  if channel = REALTIME_CHANNEL then
    match parseResult with
    | .ok data => (clients.map fun c => (c, "priceUpdate", data), 0)
    | .error _ => ([], 1)
  else ([], 0)

/-- JS truthiness of an environment value: undefined (none) and the empty
string are falsy, every other string is truthy. -/
def jsTruthyStr : Option String → Bool
  | none => false
  | some s => !(s == "")

/-- Failures fetchGeckoTerminal can raise: a thrown Error, the
ReferenceError raised by evaluating an identifier declared nowhere, or an
axios error. -/
inductive JsFailure where
  | thrownError (msg : String)
  | referenceError (name : String)
  | axiosFailure (e : AxiosError)
  deriving DecidableEq

/-- One pool entry of the GeckoTerminal response; never inspected. -/
structure GeckoPool where
  poolId : String
  deriving DecidableEq

/-- Body a GeckoTerminal search request would yield: data and included. -/
structure GeckoPayload where
  data : Option (List GeckoPool)
  included : Option (List GeckoPool)
  deriving DecidableEq

/-- Value fetchGeckoTerminal is written to return: pools and related. -/
structure GeckoResult where
  pools : List GeckoPool
  related : List GeckoPool
  deriving DecidableEq

/-- fetchGeckoTerminal (apiClient lines 56-74).  GECKO_API_KEY is the value
of process.env.GECKOTERMINAL_API_KEY (none when unset).  The guard reads
if (!GECKO_API_KEY || GCHO_API_KEY === placeholder): when the key is falsy
the first disjunct short-circuits and the missing-key Error is thrown;
otherwise the second disjunct evaluates GCHO_API_KEY, an identifier declared
nowhere in the module, which raises a ReferenceError.  Both branches throw
before the fetchWithRetry call, so doFetch (the outcome that call would
have) is never consumed and the request counter in the second component
stays 0; the result shaping into pools and related is dead code. -/
def fetchGeckoTerminal (GECKO_API_KEY : Option String)
    (doFetch : Unit → Except AxiosError GeckoPayload) :
    Except JsFailure GeckoResult × Nat :=
  if jsTruthyStr GECKO_API_KEY = false then
    (.error (.thrownError "GeckoTerminal API Key is missing or invalid in the .env file."), 0)
  else
    (.error (.referenceError "GCHO_API_KEY"), 0)

/-! Shared helper lemmas. -/

theorem length_insertDescBy (key : α → ℚ) (x : α) (l : List α) :
    (insertDescBy key x l).length = l.length + 1 := by
  induction l with
  | nil => rfl
  | cons y ys ih =>
    simp only [insertDescBy]
    by_cases h : key y > key x
    · simp [h, ih]
    · simp [h]

theorem length_sortDescBy (key : α → ℚ) (l : List α) :
    (sortDescBy key l).length = l.length := by
  induction l with
  | nil => rfl
  | cons x xs ih => simp [sortDescBy, length_insertDescBy, ih]

theorem length_sortTokens (sortBy : String) (l : List TokenRecord) :
    (sortTokens sortBy l).length = l.length :=
  length_sortDescBy _ l

theorem sortPairsByVolume_eq_nil_iff (l : List Pair) :
    sortPairsByVolume l = [] ↔ l = [] := by
  constructor
  · intro h
    have := length_sortDescBy (fun p => ((p.volume.bind PairVolume.h24).getD 0)) l
    rw [sortPairsByVolume] at h
    rw [h] at this
    exact List.length_eq_zero.mp this.symm
  · intro h
    subst h
    rfl

/-! Claim theorems. -/

/-- Claim C1 (code bug): the claim states that after every successful full
aggregation the merged catalog is stored under TOKEN_LIST_KEY with no expiry
or a very long expiry, so that it persists until the next 5-minute cycle
replaces it.  The job does store the merged catalog under TOKEN_LIST_KEY,
but it calls setJson without a ttl argument, so the write carries the
default expiry of 30 seconds, which is strictly less than the 300 second
aggregation cadence: the catalog expires away between cycles.  This theorem
evaluates the job for every fetch outcome and exhibits the 30 second TTL. -/
theorem runFullAggregation_catalog_ttl_30
    (dexRes : String → Except AxiosError (List Pair))
    (jupRes : String → Except AxiosError (List JupiterToken)) :
    ∃ l, runFullAggregation dexRes jupRes =
        [⟨TOKEN_LIST_KEY, CacheValue.tokenList l, CACHE_TTL_SECONDS⟩] ∧
      CACHE_TTL_SECONDS = 30 ∧ CACHE_TTL_SECONDS < AGGREGATION_PERIOD_SECONDS := by
  refine ⟨_, rfl, rfl, ?_⟩
  decide

/-- Claim C4 (code bug): the claim states that mergeAndCleanTokenData
returns exactly one TokenRecord per input symbol whenever every input symbol
has at least one source present.  The failing input is the single-element
list for symbol WEN with a present (empty) dexScreener source: the function
ignores its input and returns the fixed SOL, JUP, BONK mock list, so the
output contains zero records for WEN instead of one, and the output is
identical to the output on the empty input list. -/
theorem mergeAndCleanTokenData_ignores_input :
    (mergeAndCleanTokenData [⟨"WEN", some [], none⟩]).countP (fun r => r.id == "WEN") = 0 ∧
    (mergeAndCleanTokenData [⟨"WEN", some [], none⟩]).length = 3 ∧
    mergeAndCleanTokenData [⟨"WEN", some [], none⟩] = mergeAndCleanTokenData [] := by
  refine ⟨?_, rfl, rfl⟩
  rfl

/-- Claim C10 (confirmed): fetchGeckoTerminal throws on every call before
issuing any HTTP request.  For every environment value of the API key and
every would-be fetch outcome, the request counter is 0, the result is never
a success, and the error is the missing-key Error when the key is falsy
(unset or empty) and the ReferenceError for the undeclared identifier
GCHO_API_KEY when the key is truthy. -/
theorem fetchGeckoTerminal_always_throws (key : Option String)
    (doFetch : Unit → Except AxiosError GeckoPayload) :
    (fetchGeckoTerminal key doFetch).2 = 0 ∧
    (fetchGeckoTerminal key doFetch).1 =
      .error (if jsTruthyStr key then JsFailure.referenceError "GCHO_API_KEY"
        else JsFailure.thrownError
          "GeckoTerminal API Key is missing or invalid in the .env file.") ∧
    ∀ r, (fetchGeckoTerminal key doFetch).1 ≠ .ok r := by
  by_cases h : jsTruthyStr key
  · refine ⟨?_, ?_, ?_⟩ <;> simp [fetchGeckoTerminal, h]
  · have h' : jsTruthyStr key = false := by simpa using h
    refine ⟨?_, ?_, ?_⟩ <;> simp [fetchGeckoTerminal, h']

/-- Claim C3, counterexample: the claim states that every failure raised
inside the realtime ticker job is caught and logged inside the job.  At the
concrete input where the SOL pair fetch fails with a network error (an axios
error carrying no response), the job body has no try/catch, so
runRealtimeTicker propagates that very rejection to its caller instead of
completing normally; the failure is not caught inside the job. -/
theorem runRealtimeTicker_fetch_error_escapes :
    runRealtimeTicker (.error ⟨none⟩) (.ok none) "t0" = .error (.rejected ⟨none⟩) :=
  rfl

/-- Claim C3, amended: failures of the fetch or of the cache read inside the
realtime ticker job are NOT caught inside the job; runRealtimeTicker
propagates the failure to its caller (the cron scheduler), and a failing
cycle contributes no published update and no TickerState write (an error
result carries no TickerOutcome).  By contrast the claim is accurate for
the full-aggregation job, whose body is wrapped in try/catch. -/
theorem runRealtimeTicker_propagates_failures (e : AxiosError)
    (solOldRes : Except AxiosError (Option TickerState)) (solDex : List Pair)
    (now : String) :
    runRealtimeTicker (.error e) solOldRes now = .error (.rejected e) ∧
    runRealtimeTicker (.ok solDex) (.error e) now = .error (.rejected e) :=
  ⟨rfl, rfl⟩

/-- Claim C5, counterexample: the claim asserts publish-iff-threshold and
an unconditional TickerState write whenever a current price was computed.
At the concrete input of a single pair with priceUsd 200 and no volume
object, with prior state price 100 (a 100 percent move, far above the
threshold), the publish branch reads volume.h24 of the absent volume object
(scheduler line 72) and throws a TypeError: contrary to the claim, no event
is published and no TickerState write occurs; the error propagates out of
the job. -/
theorem runRealtimeTicker_publish_typeError :
    runRealtimeTicker (.ok [⟨200, none⟩]) (.ok (some ⟨100⟩)) "t0" =
      .error .typeError := by
  have hmove : |(200 : ℚ) - 100| / 100 > PRICE_CHANGE_THRESHOLD := by
    rw [show ((200 : ℚ) - 100) = 100 by norm_num,
      abs_of_pos (by norm_num : (0 : ℚ) < 100), PRICE_CHANGE_THRESHOLD]
    norm_num
  have hsort : sortPairsByVolume [⟨200, none⟩] = [⟨200, none⟩] := rfl
  simp [runRealtimeTicker, hsort, jsPriceMoveExceedsThreshold, hmove,
    show ¬(100 : ℚ) = 0 by norm_num]

/-- Claim C5, amended: in a successful ticker cycle on a non-empty pair
list, with the representative pair being the head of the volume-descending
ranking: (1) whenever the representative pair carries a volume object, a
PriceUpdateEvent is published if and only if a prior TickerState exists and
the relative price move exceeds the 0.05 percent threshold, any published
event carries the new price, and the new price is written as ticker state
with a 60 second TTL regardless of whether a publish occurred; (2) when the
representative pair has no volume object and a publish is triggered, the
job instead throws a TypeError while building the event, so nothing is
published and no TickerState is written; (3) when no publish is triggered
the state write happens even without a volume object. -/
theorem runRealtimeTicker_publish_iff_with_volume (solDex : List Pair)
    (oldState : Option TickerState) (now : String)
    (hne : solDex ≠ [])
    (hpos : ∀ o, oldState = some o → o.price ≠ 0) :
    ∃ latestPair rest,
      sortPairsByVolume solDex = latestPair :: rest ∧
      (∀ v, latestPair.volume = some v →
        ∃ u, runRealtimeTicker (.ok solDex) (.ok oldState) now = .ok u ∧
          (u.published ≠ none ↔ ∃ o, oldState = some o ∧
            |latestPair.priceUsd - o.price| / o.price > PRICE_CHANGE_THRESHOLD) ∧
          (∀ ev, u.published = some ev →
            ev = ⟨"SOL", latestPair.priceUsd, v.h24, now⟩) ∧
          u.stateWrite = some (setJson "ticker:SOL" (.ticker latestPair.priceUsd) 60)) ∧
      (latestPair.volume = none →
        ∀ o, oldState = some o →
          |latestPair.priceUsd - o.price| / o.price > PRICE_CHANGE_THRESHOLD →
          runRealtimeTicker (.ok solDex) (.ok oldState) now = .error .typeError) ∧
      ((∀ o, oldState = some o →
          ¬ |latestPair.priceUsd - o.price| / o.price > PRICE_CHANGE_THRESHOLD) →
        runRealtimeTicker (.ok solDex) (.ok oldState) now =
          .ok ⟨none, some (setJson "ticker:SOL" (.ticker latestPair.priceUsd) 60)⟩) := by
  obtain ⟨latestPair, rest, hsort⟩ : ∃ p r, sortPairsByVolume solDex = p :: r := by
    cases hs : sortPairsByVolume solDex with
    | nil => exact absurd ((sortPairsByVolume_eq_nil_iff solDex).mp hs) hne
    | cons p r => exact ⟨p, r, rfl⟩
  have hlen : 0 < solDex.length := List.length_pos.mpr hne
  refine ⟨latestPair, rest, hsort, ?_, ?_, ?_⟩
  · intro v hv
    cases oldState with
    | none =>
      refine ⟨⟨none, some (setJson "ticker:SOL" (.ticker latestPair.priceUsd) 60)⟩,
        ?_, ?_, ?_, ?_⟩
      · simp [runRealtimeTicker, hlen, hsort]
      · constructor
        · intro h
          exact absurd rfl h
        · rintro ⟨o, ho, _⟩
          exact Option.noConfusion ho
      · intro ev hev
        exact Option.noConfusion hev
      · rfl
    | some old =>
      have hop : old.price ≠ 0 := hpos old rfl
      by_cases hmove : |latestPair.priceUsd - old.price| / old.price > PRICE_CHANGE_THRESHOLD
      · refine ⟨⟨some ⟨"SOL", latestPair.priceUsd, v.h24, now⟩,
          some (setJson "ticker:SOL" (.ticker latestPair.priceUsd) 60)⟩, ?_, ?_, ?_, ?_⟩
        · simp [runRealtimeTicker, hlen, hsort, jsPriceMoveExceedsThreshold, hop, hmove, hv]
        · constructor
          · intro _
            exact ⟨old, rfl, hmove⟩
          · intro _
            simp
        · intro ev hev
          exact (Option.some_inj.mp hev).symm
        · rfl
      · refine ⟨⟨none, some (setJson "ticker:SOL" (.ticker latestPair.priceUsd) 60)⟩,
          ?_, ?_, ?_, ?_⟩
        · simp [runRealtimeTicker, hlen, hsort, jsPriceMoveExceedsThreshold, hop, hmove]
        · constructor
          · intro h
            exact absurd rfl h
          · rintro ⟨o, ho, hgt⟩
            rw [Option.some_inj] at ho
            subst ho
            exact absurd hgt hmove
        · intro ev hev
          exact Option.noConfusion hev
        · rfl
  · intro hvol o ho hgt
    subst ho
    have hop : o.price ≠ 0 := hpos o rfl
    simp [runRealtimeTicker, hlen, hsort, jsPriceMoveExceedsThreshold, hop, hgt, hvol]
  · intro hno
    cases oldState with
    | none => simp [runRealtimeTicker, hlen, hsort]
    | some old =>
      have hop : old.price ≠ 0 := hpos old rfl
      have hmove := hno old rfl
      simp [runRealtimeTicker, hlen, hsort, jsPriceMoveExceedsThreshold, hop, hmove]

/-- Claim C5, amended, witness: the spec scenario, with the volume object
present on the chosen pair.  A move from 100.00 to 100.10 (0.1 percent)
publishes exactly one event carrying price 100.10 and writes ticker state
100.10; a subsequent move from 100.10 to 100.105 (about 0.005 percent)
publishes nothing but still writes ticker state 100.105 with its 60 second
TTL. -/
theorem runRealtimeTicker_publish_iff_with_volume_witness :
    ([Pair.mk 100.10 (some ⟨some 900000⟩)] ≠ ([] : List Pair)) ∧ ((100 : ℚ) ≠ 0) ∧
    (∃ u, runRealtimeTicker (.ok [⟨100.10, some ⟨some 900000⟩⟩])
        (.ok (some ⟨100⟩)) "t1" = .ok u ∧
      u.published = some ⟨"SOL", 100.10, some 900000, "t1"⟩ ∧
      u.stateWrite = some (setJson "ticker:SOL" (.ticker 100.10) 60)) ∧
    (∃ u, runRealtimeTicker (.ok [⟨100.105, some ⟨some 900000⟩⟩])
        (.ok (some ⟨100.10⟩)) "t2" = .ok u ∧
      u.published = none ∧
      u.stateWrite = some (setJson "ticker:SOL" (.ticker 100.105) 60)) := by
  refine ⟨by simp, by norm_num, ?_, ?_⟩
  · obtain ⟨lp, rest, hsort, hVolCase, _, _⟩ :=
      runRealtimeTicker_publish_iff_with_volume [⟨100.10, some ⟨some 900000⟩⟩]
        (some ⟨100⟩) "t1"
        (by simp) (by intro o ho; rw [Option.some_inj] at ho; subst ho; norm_num)
    have hlp : lp = Pair.mk 100.10 (some ⟨some 900000⟩) := by
      have : sortPairsByVolume [⟨100.10, some ⟨some 900000⟩⟩] =
          [⟨100.10, some ⟨some 900000⟩⟩] := rfl
      rw [this] at hsort
      exact (List.cons.injEq _ _ _ _ ▸ hsort).1.symm
    subst hlp
    obtain ⟨u, hrun, hiff, hev, hwrite⟩ := hVolCase ⟨some 900000⟩ rfl
    have hpub : u.published ≠ none := by
      apply hiff.mpr
      refine ⟨⟨100⟩, rfl, ?_⟩
      show |(100.10 : ℚ) - 100| / 100 > PRICE_CHANGE_THRESHOLD
      rw [show ((100.10 : ℚ) - 100) = 1/10 by norm_num,
        abs_of_pos (by norm_num : (0:ℚ) < 1/10), PRICE_CHANGE_THRESHOLD]
      norm_num
    obtain ⟨ev, hevEq⟩ := Option.ne_none_iff_exists'.mp hpub
    have := hev ev hevEq
    subst this
    exact ⟨u, hrun, hevEq, hwrite⟩
  · obtain ⟨lp, rest, hsort, hVolCase, _, _⟩ :=
      runRealtimeTicker_publish_iff_with_volume [⟨100.105, some ⟨some 900000⟩⟩]
        (some ⟨100.10⟩) "t2"
        (by simp) (by intro o ho; rw [Option.some_inj] at ho; subst ho; norm_num)
    have hlp : lp = Pair.mk 100.105 (some ⟨some 900000⟩) := by
      have : sortPairsByVolume [⟨100.105, some ⟨some 900000⟩⟩] =
          [⟨100.105, some ⟨some 900000⟩⟩] := rfl
      rw [this] at hsort
      exact (List.cons.injEq _ _ _ _ ▸ hsort).1.symm
    subst hlp
    obtain ⟨u, hrun, hiff, hev, hwrite⟩ := hVolCase ⟨some 900000⟩ rfl
    have hnopub : u.published = none := by
      rw [← not_ne_iff]
      intro hne
      obtain ⟨o, ho, hgt⟩ := hiff.mp hne
      rw [Option.some_inj] at ho
      subst ho
      revert hgt
      show ¬ (|(100.105 : ℚ) - 100.10| / 100.10 > PRICE_CHANGE_THRESHOLD)
      rw [show ((100.105 : ℚ) - 100.10) = 1/200 by norm_num,
        abs_of_pos (by norm_num : (0:ℚ) < 1/200), PRICE_CHANGE_THRESHOLD]
      norm_num
    exact ⟨u, hrun, hnopub, hwrite⟩

/-- One unfolding step of the retry loop when the current attempt fails. -/
theorem fetchWithRetryGo_error_step (attempt : Nat → Except AxiosError α)
    (random : Nat → ℚ) (retries i m : Nat) (e : AxiosError)
    (hat : attempt i = .error e) :
    fetchWithRetryGo attempt random retries i (m + 1) =
      if i = retries - 1 ∨ isTransientError e = false then
        ⟨.error e, 1, []⟩
      else
        ⟨(fetchWithRetryGo attempt random retries (i + 1) m).result,
          (fetchWithRetryGo attempt random retries (i + 1) m).attemptsMade + 1,
          ((2 : ℚ) ^ i * 1000 + random i * 500) ::
            (fetchWithRetryGo attempt random retries (i + 1) m).delays⟩ := by
  rw [fetchWithRetryGo, hat]

/-- Behaviour of the retry loop from position i when every attempt up to the
retry limit fails with a transient error: the remaining iterations are all
used, the delays slept are the backoff values for indices i up to
retries - 2, and the error of the final attempt is the one thrown. -/
theorem fetchWithRetryGo_allTransient (attempt : Nat → Except AxiosError α)
    (random : Nat → ℚ) (retries : Nat) (err : Nat → AxiosError)
    (herr : ∀ j, j < retries → attempt j = .error (err j) ∧ isTransientError (err j) = true) :
    ∀ remaining i, i + remaining = retries → remaining ≠ 0 →
      fetchWithRetryGo attempt random retries i remaining =
        ⟨.error (err (retries - 1)), remaining,
          (List.range' i (remaining - 1)).map
            (fun j => (2 : ℚ) ^ j * 1000 + random j * 500)⟩ := by
  intro remaining
  induction remaining with
  | zero =>
    intro i _ h0
    exact absurd rfl h0
  | succ m ih =>
    intro i hsum _
    have hi : i < retries := by omega
    obtain ⟨hat, htr⟩ := herr i hi
    by_cases hlast : i = retries - 1
    · have hm : m = 0 := by omega
      subst hm
      subst hlast
      simp [fetchWithRetryGo, hat]
    · obtain ⟨k, rfl⟩ : ∃ k, m = k + 1 := ⟨m - 1, by omega⟩
      have hrec := ih (i + 1) (by omega) (by omega)
      have hcond : ¬(i = retries - 1 ∨ isTransientError (err i) = false) := by
        rintro (h | h)
        · exact hlast h
        · rw [htr] at h
          exact Bool.noConfusion h
      rw [fetchWithRetryGo_error_step attempt random retries i (k + 1) (err i) hat,
        if_neg hcond, hrec]
      simp [List.range'_succ]

/-- Claim C6 (confirmed): when every attempt fails with a transient error
(HTTP 429 or at least 500), fetchWithRetry makes exactly the configured
number of attempts, sleeps before retry i + 1 the backoff delay
2 ^ i * 1000 ms plus a jitter of random i * 500 ms lying in [0, 500) for a
Math.random value in [0, 1), the delays are non-decreasing in the attempt
index for every jitter outcome, and the error of the last attempt is the
one propagated to the caller. -/
theorem fetchWithRetry_transient_exhausts (attempt : Nat → Except AxiosError α)
    (random : Nat → ℚ) (retries : Nat) (err : Nat → AxiosError)
    (hretries : 1 ≤ retries)
    (herr : ∀ j, j < retries → attempt j = .error (err j) ∧ isTransientError (err j) = true)
    (hrand : ∀ j, 0 ≤ random j ∧ random j < 1) :
    (fetchWithRetry attempt random retries).attemptsMade = retries ∧
    (fetchWithRetry attempt random retries).result = .error (err (retries - 1)) ∧
    (fetchWithRetry attempt random retries).delays =
      (List.range (retries - 1)).map (fun j => (2 : ℚ) ^ j * 1000 + random j * 500) ∧
    (∀ j, 0 ≤ random j * 500 ∧ random j * 500 < 500) ∧
    List.Pairwise (· ≤ ·) (fetchWithRetry attempt random retries).delays := by
  have hgo := fetchWithRetryGo_allTransient attempt random retries err herr retries 0
    (by omega) (by omega)
  have hfetch : fetchWithRetry attempt random retries =
      ⟨.error (err (retries - 1)), retries,
        (List.range (retries - 1)).map
          (fun j => (2 : ℚ) ^ j * 1000 + random j * 500)⟩ := by
    rw [fetchWithRetry, hgo, List.range_eq_range']
  have hjit : ∀ j, 0 ≤ random j * 500 ∧ random j * 500 < 500 := by
    intro j
    constructor
    · exact mul_nonneg (hrand j).1 (by norm_num)
    · have := mul_lt_mul_of_pos_right (hrand j).2 (show (0 : ℚ) < 500 by norm_num)
      simpa using this
  have hmono : ∀ a b : Nat, a < b →
      (2 : ℚ) ^ a * 1000 + random a * 500 ≤ (2 : ℚ) ^ b * 1000 + random b * 500 := by
    intro a b hab
    have h1 : (1 : ℚ) ≤ 2 ^ a := by
      calc (1 : ℚ) = 2 ^ 0 := (pow_zero 2).symm
        _ ≤ 2 ^ a := pow_le_pow_right₀ (by norm_num) (Nat.zero_le a)
    have h2 : (2 : ℚ) ^ (a + 1) ≤ 2 ^ b := pow_le_pow_right₀ (by norm_num) (by omega)
    have h3 : random a * 500 < 500 := (hjit a).2
    have h4 : 0 ≤ random b * 500 := (hjit b).1
    have h5 : (2 : ℚ) ^ (a + 1) * 1000 = 2 ^ a * 1000 + 2 ^ a * 1000 := by ring
    nlinarith [h1, h2, h3, h4, h5]
  refine ⟨by rw [hfetch], by rw [hfetch], by rw [hfetch], hjit, ?_⟩
  rw [hfetch]
  exact (List.pairwise_map).mpr
    ((List.pairwise_lt_range _).imp (fun hab => hmono _ _ hab))

/-- Claim C6, witness: three attempts all failing with HTTP 503 (and zero
jitter) make exactly 3 attempts, sleep non-decreasing delays, and propagate
the last 503 error. -/
theorem fetchWithRetry_transient_exhausts_witness :
    (1 ≤ 3) ∧
    isTransientError ⟨some 503⟩ = true ∧
    (fetchWithRetry (fun _ => (.error ⟨some 503⟩ : Except AxiosError Unit))
      (fun _ => (0 : ℚ)) 3).attemptsMade = 3 ∧
    (fetchWithRetry (fun _ => (.error ⟨some 503⟩ : Except AxiosError Unit))
      (fun _ => (0 : ℚ)) 3).result = .error ⟨some 503⟩ ∧
    List.Pairwise (· ≤ ·)
      (fetchWithRetry (fun _ => (.error ⟨some 503⟩ : Except AxiosError Unit))
        (fun _ => (0 : ℚ)) 3).delays := by
  obtain ⟨h1, h2, _, _, h5⟩ := fetchWithRetry_transient_exhausts
    (fun _ => (.error ⟨some 503⟩ : Except AxiosError Unit)) (fun _ => (0 : ℚ)) 3
    (fun _ => ⟨some 503⟩) (by omega) (fun j hj => ⟨rfl, rfl⟩)
    (fun j => ⟨le_refl 0, by norm_num⟩)
  exact ⟨by omega, rfl, h1, h2, h5⟩

/-- Claim C7 (confirmed): a non-transient error on the first attempt (any
failure whose response status is neither 429 nor at least 500, including
responseless network errors) short-circuits: fetchWithRetry propagates that
error after exactly one attempt with no backoff delay, for every configured
retry count of at least 1. -/
theorem fetchWithRetry_nontransient_fails_fast (attempt : Nat → Except AxiosError α)
    (random : Nat → ℚ) (retries : Nat) (e : AxiosError)
    (hretries : 1 ≤ retries)
    (h0 : attempt 0 = .error e)
    (hnt : isTransientError e = false) :
    fetchWithRetry attempt random retries = ⟨.error e, 1, []⟩ := by
  obtain ⟨m, rfl⟩ : ∃ m, retries = m + 1 := ⟨retries - 1, by omega⟩
  simp [fetchWithRetry, fetchWithRetryGo, h0, hnt]

/-- Claim C7, witness: an HTTP 404 on the first attempt is propagated at
once, with one attempt made and no delay slept. -/
theorem fetchWithRetry_nontransient_fails_fast_witness :
    (1 ≤ 3) ∧
    isTransientError ⟨some 404⟩ = false ∧
    fetchWithRetry (fun _ => (.error ⟨some 404⟩ : Except AxiosError Unit))
      (fun _ => (0 : ℚ)) 3 = ⟨.error ⟨some 404⟩, 1, []⟩ :=
  ⟨by omega, rfl,
    fetchWithRetry_nontransient_fails_fast _ _ 3 _ (by omega) rfl rfl⟩

/-- Claim C9 (confirmed): for a message received on the broadcast channel,
a malformed payload (JSON.parse throwing) is caught inside the handler and
produces one logged error and zero client emissions, while a payload that
parses is re-emitted as one priceUpdate event to every currently connected
client.  The handler is a total function, so neither case crashes the
process. -/
theorem onBroadcastMessage_drop_or_fanout (msg : String) (d : α)
    (clients : List String) :
    onBroadcastMessage (Except.error msg : Except String α) REALTIME_CHANNEL clients
      = ([], 1) ∧
    onBroadcastMessage (Except.ok d) REALTIME_CHANNEL clients
      = (clients.map fun c => (c, "priceUpdate", d), 0) := by
  constructor <;> simp [onBroadcastMessage]

/-- Claim C8 (confirmed): when the per-query view cache misses and no
catalog is stored (or the stored catalog is empty), the endpoint answers
503 with the aggregation-in-progress error body, whose text ends in a
retry hint, and the view cache is left unchanged: no view is cached for
that query shape. -/
theorem getTokenList_unavailable_503 (q : ListQuery) (vc : ViewCache)
    (catalog : Option (List TokenRecord)) (now : String)
    (hmiss : List.lookup (cacheKeyFor q.limit q.sortBy q.filterBy) vc = none)
    (hcat : catalog = none ∨ catalog = some []) :
    getTokenList q vc catalog now = (.err 503 CATALOG_UNAVAILABLE_MSG, vc) ∧
    ∃ pre, CATALOG_UNAVAILABLE_MSG = pre ++ "Try again shortly." := by
  refine ⟨?_, ⟨"Token list is currently being aggregated. ", rfl⟩⟩
  rcases hcat with h | h <;> subst h <;> simp [getTokenList, hmiss]

/-- Claim C8, witness: defaulted query against an empty cache and an absent
catalog yields the 503 unavailable response and caches nothing. -/
theorem getTokenList_unavailable_503_witness :
    (List.lookup (cacheKeyFor 20 "volume24h" "24h") ([] : ViewCache) = none) ∧
    ((none : Option (List TokenRecord)) = none ∨
      (none : Option (List TokenRecord)) = some []) ∧
    getTokenList ⟨20, "volume24h", "24h", none⟩ [] none "t0" =
      (.err 503 CATALOG_UNAVAILABLE_MSG, ([] : ViewCache)) :=
  ⟨rfl, Or.inl rfl,
    (getTokenList_unavailable_503 ⟨20, "volume24h", "24h", none⟩ [] none "t0"
      rfl (Or.inl rfl)).1⟩

/-- Demonstration catalog for the pagination claims: three records already
in descending volume24h order. -/
def recA : TokenRecord := ⟨"A", 1, 3, 0, 0⟩

/-- Second demonstration record. -/
def recB : TokenRecord := ⟨"B", 1, 2, 0, 0⟩

/-- Third demonstration record. -/
def recC : TokenRecord := ⟨"C", 1, 1, 0, 0⟩

/-- The demonstration catalog. -/
def demoCatalog : List TokenRecord := [recA, recB, recC]

/-- The view computed and cached by a first request with limit 1, sortBy
volume24h, filterBy 24h and cursor 0 against the demonstration catalog. -/
def demoBody1 : QueryResultView := ⟨[recA], ⟨1, some 1⟩, false, "t0"⟩

/-- The view cache after that first request. -/
def demoCache1 : ViewCache := [(cacheKeyFor 1 "volume24h" "24h", demoBody1)]

/-- Reading the volume24h field through the comparator field lookup. -/
theorem numField_volume24h (r : TokenRecord) :
    r.numField "volume24h" = r.volume24h := by
  simp [TokenRecord.numField]

/-- The demonstration sort evaluates to the catalog itself. -/
theorem sortTokens_demoList :
    sortTokens "volume24h" [recA, recB, recC] = [recA, recB, recC] := by
  norm_num [sortTokens, sortDescBy, insertDescBy, numField_volume24h,
    recA, recB, recC]

/-- Claim C2, counterexample: with the three-record demonstration catalog,
limit 1 and cursor 0 the first request computes page [recA] and caches it
under the cursor-free key; the follow-up request with the returned cursor 1
(same limit, sortBy, filterBy, within the TTL window) hits that cache entry
and returns the same first page again, so the two pages are not disjoint
and their concatenation is not the first 2 elements of the sorted
catalog. -/
theorem getTokenList_cursor_cache_collision :
    getTokenList ⟨1, "volume24h", "24h", some 0⟩ [] (some demoCatalog) "t0" =
      (.ok 200 demoBody1, demoCache1) ∧
    (getTokenList ⟨1, "volume24h", "24h", some 1⟩ demoCache1 (some demoCatalog) "t1").1 =
      .ok 200 { demoBody1 with cached := true } ∧
    demoBody1.data ++ demoBody1.data ≠ (sortTokens "volume24h" demoCatalog).take 2 := by
  have hs : sortTokens "volume24h" demoCatalog = [recA, recB, recC] :=
    sortTokens_demoList
  refine ⟨?_, ?_, ?_⟩
  · simp [getTokenList, demoCatalog, sortTokens_demoList, demoBody1, demoCache1,
      cacheKeyFor]
  · simp [getTokenList, demoCache1, List.lookup]
  · rw [hs]
    have hid : recA.id ≠ recB.id := by decide
    intro h
    apply hid
    have hlists : [recA, recA] = [recA, recB] := by
      simpa [demoBody1] using h
    injection hlists with h1 h2
    injection h2 with h3 h4
    exact congrArg TokenRecord.id h3

/-- Claim C2, amended: the two-page property holds only when each request
misses the per-query view cache (for instance after the cached view
expired); the view cache key is (limit, sortBy, filterBy) with the cursor
deliberately excluded, so within the cache TTL window the second request
would instead return the cached first page (see the counterexample).  When
both requests miss the cache, page one is the first L elements of the
sorted catalog and page two the next L, their in-order concatenation is
the first min(2L, M) elements of the sorted catalog, and the first
response's nextCursor is L whenever more elements remain. -/
theorem getTokenList_pages_when_uncached (fullList : List TokenRecord) (L : Nat)
    (sortBy filterBy : String) (vc1 vc2 : ViewCache) (t1 t2 : String)
    (hne : fullList ≠ [])
    (h1 : List.lookup (cacheKeyFor L sortBy filterBy) vc1 = none)
    (h2 : List.lookup (cacheKeyFor L sortBy filterBy) vc2 = none) :
    ∃ v1 v2,
      (getTokenList ⟨L, sortBy, filterBy, some 0⟩ vc1 (some fullList) t1).1 = .ok 200 v1 ∧
      (getTokenList ⟨L, sortBy, filterBy, some L⟩ vc2 (some fullList) t2).1 = .ok 200 v2 ∧
      v1.data = (sortTokens sortBy fullList).take L ∧
      v2.data = ((sortTokens sortBy fullList).drop L).take L ∧
      v1.data ++ v2.data = (sortTokens sortBy fullList).take (L + L) ∧
      (v1.data ++ v2.data).length = min (L + L) fullList.length ∧
      (L < fullList.length → v1.pagination.nextCursor = some L) := by
  have hlen0 : ¬ fullList.length = 0 := by
    simpa [List.length_eq_zero] using hne
  have e1 : (getTokenList ⟨L, sortBy, filterBy, some 0⟩ vc1 (some fullList) t1).1 =
      .ok 200 ⟨(sortTokens sortBy fullList).take L,
        ⟨L, if L < (sortTokens sortBy fullList).length then some L else none⟩,
        false, t1⟩ := by
    simp [getTokenList, h1, hlen0]
  have e2 : (getTokenList ⟨L, sortBy, filterBy, some L⟩ vc2 (some fullList) t2).1 =
      .ok 200 ⟨((sortTokens sortBy fullList).drop L).take L,
        ⟨L, if L + L < (sortTokens sortBy fullList).length then some (L + L) else none⟩,
        false, t2⟩ := by
    simp [getTokenList, h2, hlen0]
  refine ⟨_, _, e1, e2, rfl, rfl, ?_, ?_, ?_⟩
  · exact (List.take_add (sortTokens sortBy fullList) L L).symm
  · rw [show ((sortTokens sortBy fullList).take L ++
        ((sortTokens sortBy fullList).drop L).take L) =
        (sortTokens sortBy fullList).take (L + L) from
        (List.take_add (sortTokens sortBy fullList) L L).symm,
      List.length_take, length_sortTokens]
  · intro hL
    show (if L < (sortTokens sortBy fullList).length then some L else none) = some L
    rw [if_pos]
    rw [length_sortTokens]
    exact hL

/-- Claim C2, amended, witness: the demonstration catalog with limit 1 and
both requests missing the view cache produces pages [recA] and [recB]
whose concatenation is the first two elements of the sorted catalog. -/
theorem getTokenList_pages_when_uncached_witness :
    (demoCatalog ≠ []) ∧
    (List.lookup (cacheKeyFor 1 "volume24h" "24h") ([] : ViewCache) = none) ∧
    (∃ v1 v2,
      (getTokenList ⟨1, "volume24h", "24h", some 0⟩ [] (some demoCatalog) "t0").1 =
        .ok 200 v1 ∧
      (getTokenList ⟨1, "volume24h", "24h", some 1⟩ [] (some demoCatalog) "t1").1 =
        .ok 200 v2 ∧
      v1.data = (sortTokens "volume24h" demoCatalog).take 1 ∧
      v2.data = ((sortTokens "volume24h" demoCatalog).drop 1).take 1 ∧
      v1.data ++ v2.data = (sortTokens "volume24h" demoCatalog).take (1 + 1) ∧
      (v1.data ++ v2.data).length = min (1 + 1) demoCatalog.length ∧
      (1 < demoCatalog.length → v1.pagination.nextCursor = some 1)) := by
  refine ⟨by simp [demoCatalog], rfl, ?_⟩
  exact getTokenList_pages_when_uncached demoCatalog 1 "volume24h" "24h" [] []
    "t0" "t1" (by simp [demoCatalog]) rfl rfl

end EternaLabs
